import Mathlib

/-!
Verification of the Quantity Reconciliation Engine of the
custom inventory management app (indent crate conversion, shortfall
tracking, delivery-issue validation, adjusted-indent sweep).

Numeric document fields (Frappe `Float` fields) are modelled as `ℚ`;
JavaScript truthiness of a numeric value is modelled as `≠ 0`, and a
missing / cleared link or data field as the empty string.

The field-change handlers are embedded from
`doctype/indent/indent.js` and its verbatim copy
`doctype/sf_indent_master/sf_indent_master.js`, and from the
Delivery Issue Note client script.  Server endpoints that are not part
of the repository snapshot (`get_crate_details`,
`create_adjusted_indents_for_shortfall`) are modelled from the
specification and marked as such in their doc comments.
-/

/-- One row of the `Indent Item` / `SF Indent Item` child table. -/
structure IndentItem where
  sku : String
  uom : String
  quantity : ℚ
  crates : ℤ
  loose : ℚ
  difference : ℚ
  actual : ℚ
  deriving Repr, DecidableEq

/-- Embeds `reset_row_values` (indent.js lines 88-95 and the identical
sf_indent_master.js lines 181-188): clears `uom` and zeroes every
quantity field of the row. -/
def reset_row_values (row : IndentItem) : IndentItem :=
  { row with uom := "", quantity := 0, crates := 0, loose := 0,
             difference := 0, actual := 0 }

/-- Embeds the `difference` field handler (indent.js lines 71-78,
sf_indent_master.js lines 164-171): when both `quantity` and
`difference` are truthy, sets `actual := quantity - difference`;
otherwise the handler does nothing. -/
def difference_handler (row : IndentItem) : IndentItem :=
  if row.quantity ≠ 0 ∧ row.difference ≠ 0 then
    { row with actual := row.quantity - row.difference }
  else
    row

/-- Result triple returned by the crate-details server call. -/
structure CrateResult where
  crates : ℤ
  loose : ℚ
  actual : ℚ
  deriving Repr, DecidableEq

/-- Error kinds of the packaging converter (spec section 7). -/
inductive ConvError where
  | InvalidInput
  | MissingConfiguration
  deriving Repr, DecidableEq

/-- Modelled from the spec: the pure packaging conversion of
`get_crate_details` (spec section 4.1): `crates = floor(quantity /
capacity)`, `loose = quantity - crates * capacity` (the true remainder,
not rounded), `actual = quantity`. -/
def crate_conversion (capacity : ℕ) (quantity : ℚ) : CrateResult :=
  { crates := ⌊quantity / (capacity : ℚ)⌋
    loose := quantity - (⌊quantity / (capacity : ℚ)⌋ : ℚ) * (capacity : ℚ)
    actual := quantity }

/-- Modelled from the spec: the server endpoint `get_crate_details`
(`inv_mgmt...indent.get_crate_details`, not part of the repository
snapshot; spec section 4.1).  `capacityOf` is the host's
`sku -> packaging capacity` resolution.  A non-positive quantity or an
unresolved (empty) sku fails with `InvalidInput`; a sku without a
configured capacity fails with `MissingConfiguration`; otherwise the
pure conversion triple is returned. -/
def get_crate_details (capacityOf : String → Option ℕ) (sku : String)
    (quantity : ℚ) : Except ConvError CrateResult :=
  if quantity ≤ 0 then .error .InvalidInput
  else if sku = "" then .error .InvalidInput
  else
    match capacityOf sku with
    | none => .error .MissingConfiguration
    | some cap => .ok (crate_conversion cap quantity)

/-- Embeds `calculate_crates_and_loose` (indent.js lines 110-153,
sf_indent_master.js lines 203-246): returns immediately when
`quantity` or `sku` is falsy; otherwise calls `get_crate_details` and,
on success, persists `crates`, `loose`, `actual` onto the row and
resets `difference` to 0.  On a server-reported error the callback
only shows an alert and leaves the row untouched. -/
def calculate_crates_and_loose (capacityOf : String → Option ℕ)
    (row : IndentItem) : IndentItem :=
  if row.quantity = 0 ∨ row.sku = "" then row
  else
    match get_crate_details capacityOf row.sku row.quantity with
    | .error _ => row
    | .ok r =>
        { row with crates := r.crates, loose := r.loose,
                   difference := 0, actual := r.actual }

/-- Embeds the `items_add` handler (indent.js lines 45-47,
sf_indent_master.js lines 138-140): a freshly added row is reset. -/
def items_add_handler (row : IndentItem) : IndentItem :=
  reset_row_values row

/-- Embeds the `quantity` field handler (indent.js lines 67-69,
sf_indent_master.js lines 160-162). -/
def quantity_handler (capacityOf : String → Option ℕ)
    (row : IndentItem) : IndentItem :=
  calculate_crates_and_loose capacityOf row

/-- Embeds the `sku` field handler (indent.js lines 49-65,
sf_indent_master.js lines 142-158): first resets every derived field
of the row, then, when a sku is set, looks up the item's stock UOM
(`stockUomOf`) and stores it when truthy, and finally invokes
`calculate_crates_and_loose` (which is a no-op because the quantity
was just reset to 0). -/
def sku_handler (stockUomOf : String → Option String)
    (capacityOf : String → Option ℕ) (row : IndentItem) : IndentItem :=
  let r1 := reset_row_values row
  let r2 :=
    if r1.sku ≠ "" then
      match stockUomOf r1.sku with
      | some u => if u = "" then r1 else { r1 with uom := u }
      | none => r1
    else r1
  calculate_crates_and_loose capacityOf r2

/-- One row of the `Delivery Issue Note Item` child table
(delivery_issue_note_item.json).  The handlers in the client script
also read a `qty` property alongside `conversion_factor` and
`stock_qty`, so it is carried here as well. -/
structure DeliveryIssueNoteItem where
  item_code : String
  delivery_note_qty : ℚ
  missing_qty : ℚ
  damaged_qty : ℚ
  excess_qty : ℚ
  uom : String
  stock_uom : String
  conversion_factor : ℚ
  qty : ℚ
  stock_qty : ℚ
  is_part_of_delivery_note : Bool
  deriving Repr, DecidableEq

/-- Error kinds raised by the Delivery Issue Note client script
(spec section 7): the `frappe.throw` messages of the ownership guards,
the capacity guard and the deletion guard. -/
inductive IssueError where
  | OwnershipViolation
  | QuantityExceeded
  | ProtectedRecord
  deriving Repr, DecidableEq

/-- Embeds `validate_quantities` (Delivery Issue Note client script):
on a delivery-owned row whose `missing_qty + damaged_qty` exceeds
`delivery_note_qty + excess_qty`, the script resets
`field_to_reset = frm.doc.__unsaved ? frm.doc.__last_sync_on :
'missing_qty'` to 0 and throws.  `frm.doc.__last_sync_on` is a
timestamp, not a field name, so on an unsaved form the assignment
touches none of the row's real fields; on a saved form `missing_qty`
is reset regardless of which field actually changed.  `unsaved` is the
form's `__unsaved` flag. -/
def validate_quantities (unsaved : Bool) (row : DeliveryIssueNoteItem) :
    DeliveryIssueNoteItem × Option IssueError :=
  if row.is_part_of_delivery_note = true then
    let total_issues := row.missing_qty + row.damaged_qty
    let total_available := row.delivery_note_qty + row.excess_qty
    if total_available < total_issues then
      let row1 := if unsaved = true then row else { row with missing_qty := 0 }
      (row1, some .QuantityExceeded)
    else (row, none)
  else (row, none)

/-- Embeds the `excess_qty` field handler (client script lines
247-254): on a delivery-owned row with a positive excess quantity the
handler resets `excess_qty` to 0 and throws; otherwise it runs
`validate_quantities`. -/
def excess_qty_handler (unsaved : Bool) (row : DeliveryIssueNoteItem) :
    DeliveryIssueNoteItem × Option IssueError :=
  if row.is_part_of_delivery_note = true ∧ 0 < row.excess_qty then
    ({ row with excess_qty := 0 }, some .OwnershipViolation)
  else validate_quantities unsaved row

/-- Embeds the `missing_qty` field handler (client script lines
263-270): on a row that is not part of the delivery note, a positive
missing quantity is reset to 0 with a throw; otherwise
`validate_quantities` runs. -/
def missing_qty_handler (unsaved : Bool) (row : DeliveryIssueNoteItem) :
    DeliveryIssueNoteItem × Option IssueError :=
  if row.is_part_of_delivery_note = false ∧ 0 < row.missing_qty then
    ({ row with missing_qty := 0 }, some .OwnershipViolation)
  else validate_quantities unsaved row

/-- Embeds the `damaged_qty` field handler (client script lines
279-282): it only runs `validate_quantities`. -/
def damaged_qty_handler (unsaved : Bool) (row : DeliveryIssueNoteItem) :
    DeliveryIssueNoteItem × Option IssueError :=
  validate_quantities unsaved row

/-- Embeds the `conversion_factor` field handler (client script lines
340-345): when `qty` is truthy, recomputes
`stock_qty := qty * conversion_factor`; otherwise does nothing. -/
def conversion_factor_handler (row : DeliveryIssueNoteItem) :
    DeliveryIssueNoteItem :=
  if row.qty ≠ 0 then
    { row with stock_qty := row.qty * row.conversion_factor }
  else row

/-- Embeds the `qty` field handler (client script lines 354-359): when
`conversion_factor` is truthy, recomputes
`stock_qty := qty * conversion_factor`; otherwise does nothing. -/
def qty_handler (row : DeliveryIssueNoteItem) : DeliveryIssueNoteItem :=
  if row.conversion_factor ≠ 0 then
    { row with stock_qty := row.qty * row.conversion_factor }
  else row

/-- Embeds `before_items_remove` (client script lines 232-238): a row
that is part of the delivery note cannot be deleted. -/
def before_items_remove (row : DeliveryIssueNoteItem) :
    Option IssueError :=
  if row.is_part_of_delivery_note = true then some .ProtectedRecord
  else none

/-- Deletion of row `i` of the items table: the host framework runs
`before_items_remove` first and aborts the removal when it throws. -/
def remove_item (items : List DeliveryIssueNoteItem) (i : ℕ) :
    List DeliveryIssueNoteItem × Option IssueError :=
  match items[i]? with
  | none => (items, none)
  | some row =>
      match before_items_remove row with
      | some e => (items, some e)
      | none => (items.eraseIdx i, none)

/-- The ownership invariant of a Delivery Issue Note line (spec
section 3): a delivery-owned line carries no excess quantity, a
freestanding line carries no missing quantity. -/
def ownershipInvariant (row : DeliveryIssueNoteItem) : Prop :=
  (row.is_part_of_delivery_note = true → row.excess_qty = 0) ∧
  (row.is_part_of_delivery_note = false → row.missing_qty = 0)

/-- A line of a source indent as seen by the shortfall sweep. -/
structure SweepLine where
  sku : String
  requestedQty : ℚ
  actualQty : ℚ
  deriving Repr, DecidableEq

/-- A source indent record as seen by the shortfall sweep: route,
date, lines and the processed flag. -/
structure SourceIndent where
  id : ℕ
  route : String
  date : String
  lines : List SweepLine
  processed : Bool
  deriving Repr, DecidableEq

/-- An adjusted indent derived from one source indent, holding only
the shortfall lines. -/
structure AdjustedIndent where
  sourceId : ℕ
  route : String
  date : String
  lines : List SweepLine
  deriving Repr, DecidableEq

/-- Total actual quantity committed for `sku` across the lines of a
route/date group of indents (spec section 4.4 step 3: the generator
reconciles against `actualQty`, not `requestedQty`). -/
def groupActualQty (group : List SourceIndent) (sku : String) : ℚ :=
  (group.map (fun ind =>
    ((ind.lines.filter (fun l => l.sku = sku)).map SweepLine.actualQty).sum)).sum

/-- Modelled from the spec: the per-SKU shortfall of a route/date
group (spec section 4.4 step 3):
`shortfall = max(0, realizedDemand - indentedQty)`.  `demand` is the
external `RealizedDemand` lookup `route -> date -> sku -> qty`. -/
def shortfallQty (demand : String → String → String → ℚ)
    (route date : String) (group : List SourceIndent) (sku : String) : ℚ :=
  max 0 (demand route date sku - groupActualQty group sku)

/-- Modelled from the spec: the shortfall lines of one source indent
(spec section 4.4 step 4): one line per distinct SKU appearing in the
source indent whose group shortfall is positive, with the requested
quantity set to the shortfall amount. -/
def shortfallLines (demand : String → String → String → ℚ)
    (group : List SourceIndent) (ind : SourceIndent) : List SweepLine :=
  ((ind.lines.map SweepLine.sku).dedup).filterMap (fun sku =>
    let s := shortfallQty demand ind.route ind.date group sku
    if 0 < s then some ⟨sku, s, s⟩ else none)

/-- Modelled from the spec: processing of one source indent by the
sweep (spec section 4.4 steps 3-5).  An indent whose processed flag is
already set is never revisited; otherwise the indent is marked
processed and an adjusted indent is emitted exactly when some SKU of
the indent has a positive shortfall. -/
def processIndent (demand : String → String → String → ℚ)
    (group : List SourceIndent) (ind : SourceIndent) :
    SourceIndent × Option AdjustedIndent :=
  if ind.processed = true then (ind, none)
  else
    let ls := shortfallLines demand group ind
    if ls.isEmpty then ({ ind with processed := true }, none)
    else ({ ind with processed := true },
          some ⟨ind.id, ind.route, ind.date, ls⟩)

/-- Modelled from the spec: the batch sweep
`create_adjusted_indents_for_shortfall` (server endpoint
`inv_mgmt...api_end_points.indent`, not part of the repository
snapshot; spec sections 4.4 and 5).  Candidate (unprocessed) indents
are grouped by route/date and every indent is processed against its
group, returning the updated indents and the adjusted indents created
by this run. -/
def runShortfallSweep (demand : String → String → String → ℚ)
    (indents : List SourceIndent) :
    List SourceIndent × List AdjustedIndent :=
  let candidates := indents.filter (fun i => !i.processed)
  let stepped := indents.map (fun i =>
    processIndent demand
      (candidates.filter (fun j => j.route = i.route && j.date = i.date)) i)
  (stepped.map Prod.fst, stepped.filterMap Prod.snd)

/-- Every indent coming out of `processIndent` carries the processed
flag. -/
theorem processIndent_fst_processed (demand : String → String → String → ℚ)
    (group : List SourceIndent) (ind : SourceIndent) :
    ((processIndent demand group ind).1).processed = true := by
  unfold processIndent
  split
  · next h => simpa using h
  · dsimp only
    split <;> rfl

/-- `processIndent` emits nothing for an already-processed indent. -/
theorem processIndent_snd_of_processed (demand : String → String → String → ℚ)
    (group : List SourceIndent) (ind : SourceIndent)
    (h : ind.processed = true) :
    (processIndent demand group ind).2 = none := by
  simp [processIndent, h]

/-- After a sweep, every indent in the resulting list is processed. -/
theorem runShortfallSweep_all_processed
    (demand : String → String → String → ℚ)
    (indents : List SourceIndent) :
    ∀ i ∈ (runShortfallSweep demand indents).1, i.processed = true := by
  intro i hi
  simp only [runShortfallSweep, List.map_map, List.mem_map] at hi
  obtain ⟨j, _, hj⟩ := hi
  rw [← hj]
  exact processIndent_fst_processed _ _ _

/-- A sweep over a list of already-processed indents emits no adjusted
indent. -/
theorem runShortfallSweep_snd_nil_of_processed
    (demand : String → String → String → ℚ)
    (l : List SourceIndent) (h : ∀ i ∈ l, i.processed = true) :
    (runShortfallSweep demand l).2 = [] := by
  simp only [runShortfallSweep, List.filterMap_map]
  rw [List.filterMap_eq_nil_iff]
  intro i hi
  exact processIndent_snd_of_processed _ _ _ (h i hi)

/-- Claim C1 counterexample: on a row with `quantity = 10`,
`difference = 0` and a stale `actual = 7`, the `difference` handler
leaves `actual` at 7, whereas the claim demands
`actualQty = requestedQty - difference = 10`. -/
theorem c1_applyDifference_counterexample :
    (difference_handler ⟨"SKU-A", "Nos", 10, 0, 0, 0, 7⟩).actual = 7 ∧
    (7 : ℚ) ≠ 10 - 0 := by
  constructor
  · norm_num [difference_handler]
  · norm_num

/-- Claim C1 (amended): whenever `requestedQty` and `difference` are
both non-zero, the `difference` handler sets
`actualQty = requestedQty - difference` without clamping; when either
is zero the handler leaves the row unchanged; and the handler is
idempotent. -/
theorem c1_applyDifference_amended (row : IndentItem) :
    (row.quantity ≠ 0 → row.difference ≠ 0 →
      (difference_handler row).actual = row.quantity - row.difference) ∧
    (row.quantity = 0 ∨ row.difference = 0 → difference_handler row = row) ∧
    difference_handler (difference_handler row) = difference_handler row := by
  refine ⟨?_, ?_, ?_⟩
  · intro hq hd
    simp [difference_handler, hq, hd]
  · intro h
    rcases h with h | h <;> simp [difference_handler, h]
  · by_cases h : row.quantity ≠ 0 ∧ row.difference ≠ 0
    · simp [difference_handler, h]
    · simp [difference_handler, h]

/-- Witness for C1 (amended) at `quantity = 10`, `difference = 3`. -/
theorem c1_applyDifference_amended_witness :
    (difference_handler ⟨"SKU-A", "Nos", 10, 0, 0, 3, 0⟩).actual = 10 - 3 :=
  (c1_applyDifference_amended ⟨"SKU-A", "Nos", 10, 0, 0, 3, 0⟩).1
    (by norm_num) (by norm_num)

/-- Claim C2 counterexample: with packaging capacity 1 and the
fractional quantity 1/2, the converter returns `crates = 0` and
`loose = 1/2`, so the claimed degenerate case
`crates = quantity, loose = 0` fails. -/
theorem c2_convert_counterexample :
    get_crate_details (fun _ => some 1) "SKU-A" ((1 : ℚ)/2) =
      Except.ok ⟨0, 1/2, 1/2⟩ ∧
    ((0 : ℚ) ≠ (1 : ℚ)/2 ∧ ((1 : ℚ)/2) ≠ 0) := by
  have hs : ("SKU-A" : String) ≠ "" := by decide
  constructor
  · norm_num [get_crate_details, crate_conversion, hs]
  · norm_num

/-- Claim C2 (amended): for every positive quantity and configured
capacity at least 1, the converter succeeds with
`crates = floor(quantity / capacity)`,
`crates * capacity + loose = quantity`, `0 ≤ loose < capacity` and
`crates ≥ 0`; capacity 1 gives `crates = floor(quantity)` and
`loose = quantity - floor(quantity)`, which reduce to
`crates = quantity, loose = 0` exactly when the quantity is a whole
number. -/
theorem c2_convert_bounds (capacityOf : String → Option ℕ) (sku : String)
    (q : ℚ) (cap : ℕ) (hq : 0 < q) (hsku : sku ≠ "")
    (hcap : capacityOf sku = some cap) (h1 : 1 ≤ cap) :
    get_crate_details capacityOf sku q = .ok (crate_conversion cap q) ∧
    (crate_conversion cap q).crates = ⌊q / (cap : ℚ)⌋ ∧
    ((crate_conversion cap q).crates : ℚ) * (cap : ℚ) +
      (crate_conversion cap q).loose = q ∧
    0 ≤ (crate_conversion cap q).loose ∧
    (crate_conversion cap q).loose < (cap : ℚ) ∧
    0 ≤ (crate_conversion cap q).crates ∧
    (cap = 1 → (crate_conversion cap q).crates = ⌊q⌋ ∧
      (crate_conversion cap q).loose = q - (⌊q⌋ : ℚ)) ∧
    (∀ n : ℕ, cap = 1 → q = (n : ℚ) →
      ((crate_conversion cap q).crates : ℚ) = (n : ℚ) ∧
      (crate_conversion cap q).loose = 0) := by
  have hc : (0 : ℚ) < (cap : ℚ) := by
    exact_mod_cast Nat.lt_of_lt_of_le Nat.zero_lt_one h1
  have hcne : (cap : ℚ) ≠ 0 := ne_of_gt hc
  refine ⟨?_, rfl, ?_, ?_, ?_, ?_, ?_, ?_⟩
  · simp [get_crate_details, hsku, hcap, not_le.mpr hq]
  · simp only [crate_conversion]
    ring
  · simp only [crate_conversion]
    have hle : (⌊q / (cap : ℚ)⌋ : ℚ) * (cap : ℚ) ≤ q := by
      have h2 : (⌊q / (cap : ℚ)⌋ : ℚ) ≤ q / (cap : ℚ) := Int.floor_le _
      calc (⌊q / (cap : ℚ)⌋ : ℚ) * (cap : ℚ)
          ≤ (q / (cap : ℚ)) * (cap : ℚ) :=
            mul_le_mul_of_nonneg_right h2 hc.le
        _ = q := div_mul_cancel₀ q hcne
    linarith
  · simp only [crate_conversion]
    have hlt : q < ((⌊q / (cap : ℚ)⌋ : ℚ) + 1) * (cap : ℚ) := by
      have h2 : q / (cap : ℚ) < (⌊q / (cap : ℚ)⌋ : ℚ) + 1 :=
        Int.lt_floor_add_one _
      calc q = (q / (cap : ℚ)) * (cap : ℚ) := (div_mul_cancel₀ q hcne).symm
        _ < ((⌊q / (cap : ℚ)⌋ : ℚ) + 1) * (cap : ℚ) :=
            mul_lt_mul_of_pos_right h2 hc
    nlinarith
  · simp only [crate_conversion]
    exact Int.floor_nonneg.mpr (div_nonneg hq.le hc.le)
  · intro h
    subst h
    constructor
    · simp [crate_conversion]
    · simp [crate_conversion]
  · intro n h hn
    subst h
    subst hn
    constructor
    · simp [crate_conversion]
    · simp [crate_conversion]

/-- Witness for C2 (amended) at quantity 10 and capacity 4. -/
theorem c2_convert_bounds_witness :
    ((crate_conversion 4 (10 : ℚ)).crates : ℚ) * ((4 : ℕ) : ℚ) +
      (crate_conversion 4 (10 : ℚ)).loose = 10 :=
  (c2_convert_bounds (fun s => if s = "SKU-A" then some 4 else none)
    "SKU-A" 10 4 (by norm_num) (by simp) (by simp) (by norm_num)).2.2.1

/-- Claim C3: evaluation of the capacity guard at a failing input.  A
delivery-owned row with `delivery_note_qty = 10`, `missing_qty = 0`
and `damaged_qty` just changed to 11 violates the bound; the handler
throws `QuantityExceeded` but — on an unsaved form it resets a
timestamp pseudo-field and on a saved form it resets `missing_qty`
(already 0) instead of the changed `damaged_qty` — so in both cases
the stored row still violates `missing + damaged ≤ delivered +
excess`. -/
theorem c3_capacity_guard_code_bug_eval :
    damaged_qty_handler true
        ⟨"ITEM-1", 10, 0, 11, 0, "Nos", "Nos", 1, 0, 0, true⟩ =
      (⟨"ITEM-1", 10, 0, 11, 0, "Nos", "Nos", 1, 0, 0, true⟩,
        some IssueError.QuantityExceeded) ∧
    damaged_qty_handler false
        ⟨"ITEM-1", 10, 0, 11, 0, "Nos", "Nos", 1, 0, 0, true⟩ =
      (⟨"ITEM-1", 10, 0, 11, 0, "Nos", "Nos", 1, 0, 0, true⟩,
        some IssueError.QuantityExceeded) ∧
    ((10 : ℚ) + 0 < 0 + 11) := by
  refine ⟨?_, ?_, by norm_num⟩
  · norm_num [damaged_qty_handler, validate_quantities]
  · norm_num [damaged_qty_handler, validate_quantities]

/-- Claim C4: the ownership guards.  For a row with non-negative
missing and excess quantities: the `excess_qty` handler leaves the row
satisfying the ownership invariant provided the (untouched)
missing-side half held before, and symmetrically for the `missing_qty`
handler; an attempt to set a positive excess quantity on a
delivery-owned row is rejected with `OwnershipViolation` and the
excess quantity reset to 0, and an attempt to set a positive missing
quantity on a freestanding row is rejected likewise with the missing
quantity reset to 0. -/
theorem c4_ownership_guards (unsaved : Bool) (row : DeliveryIssueNoteItem)
    (hm : 0 ≤ row.missing_qty) (he : 0 ≤ row.excess_qty) :
    ((row.is_part_of_delivery_note = false → row.missing_qty = 0) →
      ownershipInvariant (excess_qty_handler unsaved row).1) ∧
    ((row.is_part_of_delivery_note = true → row.excess_qty = 0) →
      ownershipInvariant (missing_qty_handler unsaved row).1) ∧
    (row.is_part_of_delivery_note = true → 0 < row.excess_qty →
      excess_qty_handler unsaved row =
        ({ row with excess_qty := 0 }, some .OwnershipViolation)) ∧
    (row.is_part_of_delivery_note = false → 0 < row.missing_qty →
      missing_qty_handler unsaved row =
        ({ row with missing_qty := 0 }, some .OwnershipViolation)) := by
  refine ⟨?_, ?_, ?_, ?_⟩
  · intro hpre
    unfold excess_qty_handler validate_quantities ownershipInvariant
    cases hb : row.is_part_of_delivery_note <;>
      simp only [hb] <;> split_ifs <;>
      constructor <;> intro h <;> simp_all <;> linarith
  · intro hpre
    unfold missing_qty_handler validate_quantities ownershipInvariant
    cases hb : row.is_part_of_delivery_note <;>
      (simp only [hb]; split_ifs) <;>
      constructor <;> intro h <;> simp_all <;> linarith
  · intro hb hx
    simp [excess_qty_handler, hb, hx]
  · intro hb hx
    simp [missing_qty_handler, hb, hx]

/-- Witness for C4: an owned row with `excess_qty = 5` is reset to 0
with `OwnershipViolation`. -/
theorem c4_ownership_guards_witness :
    excess_qty_handler false
        ⟨"ITEM-1", 10, 0, 0, 5, "Nos", "Nos", 1, 0, 0, true⟩ =
      (⟨"ITEM-1", 10, 0, 0, 0, "Nos", "Nos", 1, 0, 0, true⟩,
        some IssueError.OwnershipViolation) := by
  have h := (c4_ownership_guards false
      ⟨"ITEM-1", 10, 0, 0, 5, "Nos", "Nos", 1, 0, 0, true⟩
      (by norm_num) (by norm_num)).2.2.1 rfl (by norm_num)
  simpa using h

/-- Claim C5: re-running the shortfall sweep with unchanged inputs
creates zero additional adjusted indents (every indent is marked
processed by the first run and never revisited), and a single run
creates at most one adjusted indent per source indent. -/
theorem c5_sweep_idempotent (demand : String → String → String → ℚ)
    (indents : List SourceIndent) :
    (runShortfallSweep demand (runShortfallSweep demand indents).1).2 = [] ∧
    ((runShortfallSweep demand indents).2).length ≤ indents.length := by
  constructor
  · exact runShortfallSweep_snd_nil_of_processed demand _
      (runShortfallSweep_all_processed demand indents)
  · simp only [runShortfallSweep, List.filterMap_map]
    calc (List.filterMap
            (Prod.snd ∘ fun i => processIndent demand
              ((indents.filter (fun i => !i.processed)).filter
                (fun j => j.route = i.route && j.date = i.date)) i)
            indents).length
        ≤ indents.length := List.length_filterMap_le _ _

/-- Claim C6: after a successful conversion (positive quantity,
resolved sku, configured capacity) the caller persists the returned
crates and loose onto the row, sets `actual` to the quantity and
resets `difference` to 0, discarding any prior shortfall entry. -/
theorem c6_convert_persists (capacityOf : String → Option ℕ)
    (row : IndentItem) (cap : ℕ) (hq : 0 < row.quantity)
    (hsku : row.sku ≠ "") (hcap : capacityOf row.sku = some cap) :
    calculate_crates_and_loose capacityOf row =
      { row with crates := (crate_conversion cap row.quantity).crates,
                 loose := (crate_conversion cap row.quantity).loose,
                 difference := 0,
                 actual := row.quantity } := by
  have hg : ¬(row.quantity = 0 ∨ row.sku = "") := by
    push_neg
    exact ⟨ne_of_gt hq, hsku⟩
  unfold calculate_crates_and_loose
  rw [if_neg hg]
  simp [get_crate_details, not_le.mpr hq, hsku, hcap, crate_conversion]

/-- Witness for C6: quantity 10 at capacity 4 persists crates 2,
loose 2, difference 0, actual 10. -/
theorem c6_convert_persists_witness :
    calculate_crates_and_loose
        (fun s => if s = "SKU-A" then some 4 else none)
        ⟨"SKU-A", "Nos", 10, 0, 0, 6, 4⟩ =
      ⟨"SKU-A", "Nos", 10, 2, 2, 0, 10⟩ := by
  have h := c6_convert_persists
      (fun s => if s = "SKU-A" then some 4 else none)
      ⟨"SKU-A", "Nos", 10, 0, 0, 6, 4⟩ 4
      (by norm_num) (by decide) (by simp)
  rw [h]
  norm_num [crate_conversion]

/-- Claim C7: a conversion request with a non-positive quantity or an
unresolved sku fails with `InvalidInput` and the caller modifies none
of the row's fields. -/
theorem c7_invalid_input (capacityOf : String → Option ℕ)
    (row : IndentItem) (h : row.quantity ≤ 0 ∨ row.sku = "") :
    calculate_crates_and_loose capacityOf row = row ∧
    get_crate_details capacityOf row.sku row.quantity =
      .error .InvalidInput := by
  constructor
  · unfold calculate_crates_and_loose
    rcases h with h | h
    · rcases eq_or_lt_of_le h with h0 | h0
      · simp [h0.symm]
      · by_cases hs : row.sku = ""
        · simp [hs]
        · simp [get_crate_details, le_of_lt h0, hs, ne_of_lt h0]
    · simp [h]
  · unfold get_crate_details
    rcases h with h | h
    · simp [h]
    · by_cases h0 : row.quantity ≤ 0
      · simp [h0]
      · simp [h0, h]

/-- Witness for C7 at quantity 0. -/
theorem c7_invalid_input_witness :
    calculate_crates_and_loose (fun _ => some 4)
        ⟨"SKU-A", "Nos", 0, 0, 0, 0, 0⟩ =
      ⟨"SKU-A", "Nos", 0, 0, 0, 0, 0⟩ ∧
    get_crate_details (fun _ => some 4) "SKU-A" 0 =
      .error .InvalidInput :=
  c7_invalid_input (fun _ => some 4) ⟨"SKU-A", "Nos", 0, 0, 0, 0, 0⟩
    (Or.inl (by norm_num))

/-- Claim C8: deleting a delivery-owned row fails with
`ProtectedRecord` and leaves the items list unchanged, while deleting
a freestanding row succeeds. -/
theorem c8_delete_guard (items : List DeliveryIssueNoteItem) (i : ℕ)
    (row : DeliveryIssueNoteItem) (h : items[i]? = some row) :
    (row.is_part_of_delivery_note = true →
      remove_item items i = (items, some .ProtectedRecord)) ∧
    (row.is_part_of_delivery_note = false →
      remove_item items i = (items.eraseIdx i, none)) := by
  constructor <;> intro hb <;>
    simp [remove_item, before_items_remove, h, hb]

/-- Witness for C8: a one-row table with an owned row survives the
delete attempt with `ProtectedRecord`; a freestanding row is removed
successfully. -/
theorem c8_delete_guard_witness :
    remove_item [⟨"ITEM-1", 10, 0, 0, 0, "Nos", "Nos", 1, 0, 0, true⟩] 0 =
      ([⟨"ITEM-1", 10, 0, 0, 0, "Nos", "Nos", 1, 0, 0, true⟩],
        some IssueError.ProtectedRecord) ∧
    remove_item [⟨"ITEM-2", 0, 0, 0, 3, "Nos", "Nos", 1, 0, 0, false⟩] 0 =
      ([], none) := by
  constructor
  · exact (c8_delete_guard
      [⟨"ITEM-1", 10, 0, 0, 0, "Nos", "Nos", 1, 0, 0, true⟩] 0 _ rfl).1 rfl
  · have h := (c8_delete_guard
      [⟨"ITEM-2", 0, 0, 0, 3, "Nos", "Nos", 1, 0, 0, false⟩] 0 _ rfl).2 rfl
    simpa using h

/-- Claim C9 counterexample: on a row with `qty = 0`,
`conversion_factor = 2` and a stale `stock_qty = 5`, the
`conversion_factor` handler leaves `stock_qty` at 5, whereas the claim
demands it be recomputed to `qty * conversionFactor = 0`. -/
theorem c9_stock_qty_counterexample :
    (conversion_factor_handler
        ⟨"ITEM-1", 0, 0, 0, 0, "Box", "Nos", 2, 0, 5, false⟩).stock_qty = 5 ∧
    (5 : ℚ) ≠ 0 * 2 := by
  constructor
  · norm_num [conversion_factor_handler]
  · norm_num

/-- Claim C9 (amended): a `conversion_factor` change recomputes
`stock_qty = qty * conversion_factor` provided `qty` is non-zero, and
a `qty` change recomputes it provided `conversion_factor` is non-zero;
when the guarding value is zero the handler leaves the row
unchanged. -/
theorem c9_stock_qty_amended (row : DeliveryIssueNoteItem) :
    (row.qty ≠ 0 → (conversion_factor_handler row).stock_qty =
      row.qty * row.conversion_factor) ∧
    (row.conversion_factor ≠ 0 → (qty_handler row).stock_qty =
      row.qty * row.conversion_factor) ∧
    (row.qty = 0 → conversion_factor_handler row = row) ∧
    (row.conversion_factor = 0 → qty_handler row = row) := by
  refine ⟨?_, ?_, ?_, ?_⟩ <;> intro h <;>
    simp [conversion_factor_handler, qty_handler, h]

/-- Witness for C9 (amended) at `qty = 3`, `conversion_factor = 2`. -/
theorem c9_stock_qty_amended_witness :
    (conversion_factor_handler
        ⟨"ITEM-1", 0, 0, 0, 0, "Box", "Nos", 2, 3, 0, false⟩).stock_qty =
      3 * 2 :=
  (c9_stock_qty_amended
    ⟨"ITEM-1", 0, 0, 0, 0, "Box", "Nos", 2, 3, 0, false⟩).1 (by norm_num)

/-- Claim C10: the `sku` handler first resets every derived field, so
its result carries `quantity = crates = loose = difference =
actual = 0`, a freshly added row is fully reset, and the handler's
result depends only on the row's sku — no value computed for a
previous sku survives. -/
theorem c10_sku_reset (stockUomOf : String → Option String)
    (capacityOf : String → Option ℕ) (row : IndentItem) :
    (sku_handler stockUomOf capacityOf row).quantity = 0 ∧
    (sku_handler stockUomOf capacityOf row).crates = 0 ∧
    (sku_handler stockUomOf capacityOf row).loose = 0 ∧
    (sku_handler stockUomOf capacityOf row).difference = 0 ∧
    (sku_handler stockUomOf capacityOf row).actual = 0 ∧
    items_add_handler row = reset_row_values row ∧
    (∀ row2 : IndentItem, row2.sku = row.sku →
      sku_handler stockUomOf capacityOf row2 =
        sku_handler stockUomOf capacityOf row) := by
  have hres : ∀ r : IndentItem, sku_handler stockUomOf capacityOf r =
      (if r.sku ≠ "" then
        match stockUomOf r.sku with
        | some u => if u = "" then reset_row_values r
                    else { reset_row_values r with uom := u }
        | none => reset_row_values r
      else reset_row_values r) := by
    intro r
    unfold sku_handler
    split_ifs with h
    · cases hu : stockUomOf (reset_row_values r).sku <;>
        simp_all [reset_row_values, calculate_crates_and_loose] <;>
        split_ifs <;> simp [reset_row_values]
    · simp_all [reset_row_values, calculate_crates_and_loose]
  have key : ∀ r : IndentItem,
      (sku_handler stockUomOf capacityOf r).quantity = 0 ∧
      (sku_handler stockUomOf capacityOf r).crates = 0 ∧
      (sku_handler stockUomOf capacityOf r).loose = 0 ∧
      (sku_handler stockUomOf capacityOf r).difference = 0 ∧
      (sku_handler stockUomOf capacityOf r).actual = 0 := by
    intro r
    rw [hres]
    split_ifs
    · cases hu : stockUomOf r.sku
      · simp [reset_row_values]
      · dsimp only
        split_ifs <;> simp [reset_row_values]
    · simp [reset_row_values]
  refine ⟨(key row).1, (key row).2.1, (key row).2.2.1, (key row).2.2.2.1,
          (key row).2.2.2.2, rfl, ?_⟩
  intro row2 hs
  rw [hres, hres]
  simp only [reset_row_values, hs]

/-- Witness for C10: two rows sharing a sku but differing in every
derived field produce the same handler result. -/
theorem c10_sku_reset_witness :
    sku_handler (fun _ => some "Nos") (fun _ => some 4)
        ⟨"SKU-A", "Box", 7, 1, 3, 2, 5⟩ =
      sku_handler (fun _ => some "Nos") (fun _ => some 4)
        ⟨"SKU-A", "", 0, 0, 0, 0, 0⟩ :=
  (c10_sku_reset (fun _ => some "Nos") (fun _ => some 4)
    ⟨"SKU-A", "", 0, 0, 0, 0, 0⟩).2.2.2.2.2.2
    ⟨"SKU-A", "Box", 7, 1, 3, 2, 5⟩ rfl
